import Mathlib

/-!
Verification of the UptimeMonitor repository (`src/main.go`) against its
natural-language specification.

Go strings are modelled as `List Char` (`GoStr`); Go's standard string
helpers used by the program (`strings.HasPrefix`, `strings.TrimPrefix`,
`strings.Contains`) are embedded as executable Lean functions with the same
argument order as in Go.  The network (the `http.Get` outcome and the
`tls.Dial` outcome) is an input to the embedded functions: a probe result
and a dial oracle.  Database writes, Slack posts and e-mails are modelled
as an effect trace (`Effect`), in the order the source emits them.
-/

/-- Go strings, modelled as lists of characters. -/
abbrev GoStr := List Char

/-- Coerce a Lean string literal to the `GoStr` model. -/
def str (s : String) : GoStr := s.data

/-- Model of `strings.HasPrefix(s, pre)` from the Go standard library. -/
def goHasPrefix : GoStr → GoStr → Bool
  | _, [] => true
  | [], _ :: _ => false
  | c :: s, d :: p => c == d && goHasPrefix s p

/-- Model of `strings.TrimPrefix(s, pre)` from the Go standard library: drops `pre`
from the front of `s` when present, otherwise returns `s` unchanged. -/
def goTrimPrefix (s pre : GoStr) : GoStr :=
  if goHasPrefix s pre then s.drop pre.length else s

/-- Model of `strings.Contains(s, sub)` from the Go standard library. -/
def goContains : GoStr → GoStr → Bool
  | [], sub => sub.isEmpty
  | c :: s, sub => goHasPrefix (c :: s) sub || goContains s sub

/-- Number of colon characters in a string (used to model the `host:port`
address syntax accepted by Go's `net.Dial`). -/
def colonCount (s : GoStr) : Nat := s.countP (· == ':')

/-- Severity of a notification, per the spec's severity table.  The source
encodes severity as the literal first word of the Slack message
(`"WARNING: ..."` / `"ATTENTION: ..."`), so the severity of a message is
recovered from that prefix. -/
inductive Severity where
  | info
  | warning
  | attention
deriving DecidableEq

/-- Severity encoded in the leading word of a Slack message built by
`checkWebsite` in `src/main.go`. -/
def severityOfMsg (m : GoStr) : Severity :=
  if goHasPrefix m (str "WARNING") then .warning
  else if goHasPrefix m (str "ATTENTION") then .attention
  else .info

/-- One externally visible side effect of a check, named after the source
function that performs it (`src/main.go`):
* `updateWebsiteStatus url status responseTime` — the status upsert
  (the spec's `recordStatus`), lines 155–161;
* `saveRespTime url responseTime` — the response-time series insert
  (the spec's `recordLatencySample`), lines 163–169;
* `updateSSLInfo url issuer expiredssl` — the certificate-metadata upsert
  performed inside `checkSSL` (the spec's `recordCertificate`),
  lines 187–191;
* `sendSlackMessage msg` — the chat-webhook post, lines 115–131;
* `sendEmailToClient url status` — the owner-lookup-plus-email step,
  lines 266–281 (owner resolution is external; the effect records that
  the e-mail dispatch was invoked for the URL's owner). -/
inductive Effect where
  | updateWebsiteStatus (url status : GoStr) (responseTime : Nat)
  | saveRespTime (url : GoStr) (responseTime : Nat)
  | updateSSLInfo (url issuer expiredssl : GoStr)
  | sendSlackMessage (msg : GoStr)
  | sendEmailToClient (url status : GoStr)
deriving DecidableEq

/-- Whether an effect is the status upsert (`updateWebsiteStatus`). -/
def Effect.isUpdateWebsiteStatus : Effect → Bool
  | .updateWebsiteStatus .. => true
  | _ => false

/-- Whether an effect is the response-time series insert (`saveRespTime`). -/
def Effect.isSaveRespTime : Effect → Bool
  | .saveRespTime .. => true
  | _ => false

/-- Whether an effect is a chat-webhook post (`sendSlackMessage`). -/
def Effect.isSendSlackMessage : Effect → Bool
  | .sendSlackMessage .. => true
  | _ => false

/-- Whether an effect is an owner e-mail dispatch (`sendEmailToClient`). -/
def Effect.isSendEmailToClient : Effect → Bool
  | .sendEmailToClient .. => true
  | _ => false

/-- Outcome of the `http.Get(url)` call at the top of `checkWebsite`
(`src/main.go` line 206): either a transport-level error carrying Go's
error text, or an HTTP response with a status code, together with the
measured elapsed time (`time.Since(startTime)`, line 244). -/
inductive ProbeResult where
  | transportError (errMsg : GoStr)
  | response (statusCode : Nat) (latency : Nat)
deriving DecidableEq

/-- The spec's `Success` outcome: the probe connected and the HTTP status
was 200 (`resp.StatusCode == http.StatusOK`, `src/main.go` line 246). -/
def ProbeResult.isSuccess : ProbeResult → Bool
  | .response statusCode _ => statusCode == 200
  | .transportError _ => false

/-- Outcome of a TCP/TLS connection attempt that actually reaches the
network: an error with Go's error text, or an established connection
carrying the `VerifyHostname` outcome and the leaf certificate's issuer
and formatted expiry (`expiry.Format(time.RFC850)`). -/
inductive DialOutcome where
  | err (msg : GoStr)
  | conn (verifyErr : Option GoStr) (issuer expiredssl : GoStr)

/-- Model of `tls.Dial("tcp", addr, nil)` as used by `checkSSL`.  Go's dialer parses
`addr` with `net.SplitHostPort`: for the non-bracketed addresses this
program builds, an address with no colon fails with `missing port in
address` and one with more than one colon fails with `too many colons in
address`; only a well-formed `host:port` address reaches the network,
whose behaviour is the oracle `net`. -/
def goDial (net : GoStr → DialOutcome) (addr : GoStr) : DialOutcome :=
  match colonCount addr with
  | 1 => net addr
  | 0 => .err (str "dial tcp: address " ++ addr ++ str ": missing port in address")
  | _ => .err (str "dial tcp: address " ++ addr ++ str ": too many colons in address")

/-- Embedding of `checkSSL(db, url)` from `src/main.go` lines 171–192.  It strips the
literal prefix `"https://"`, dials `strippedURL + ":443"`, and on a dial
error or a hostname-verification error it `panic`s (modelled as
`Except.error` carrying the panic message); otherwise it upserts the
certificate metadata. -/
def checkSSL (net : GoStr → DialOutcome) (url : GoStr) : Except GoStr (List Effect) :=
  match goDial net (goTrimPrefix url (str "https://") ++ str ":443") with
  | .err e => .error (str "Server doesn't support SSL certificate err: " ++ e)
  | .conn verifyErr issuer expiredssl =>
    match verifyErr with
    | some e => .error (str "Hostname doesn't match with certificate: " ++ e)
    | none => .ok [Effect.updateSSLInfo url issuer expiredssl]

/-- The Slack message of the TLS-handshake-timeout branch
(`src/main.go` line 217). -/
def slackTLSTimeoutMsg (url e timeString : GoStr) : GoStr :=
  str "WARNING: Website " ++ url ++ str " could be down, please check. Status: "
    ++ e ++ str " \n Time: " ++ timeString

/-- The Slack message of the no-such-host branch (`src/main.go` line 225). -/
def slackNoSuchHostMsg (url e timeString : GoStr) : GoStr :=
  str "WARNING: Website " ++ url ++ str " could be down. Status: "
    ++ e ++ str " \n Time: " ++ timeString

/-- The Slack message of the other-transport-error branch
(`src/main.go` line 236). -/
def slackOtherErrMsg (url e timeString : GoStr) : GoStr :=
  str "ATTENTION: Website " ++ url ++ str " is down. Status: "
    ++ e ++ str " \n Time: " ++ timeString

/-- The failure label `fmt.Sprintf("Down (Status Code: %d)", code)`
(`src/main.go` lines 256 and 259). -/
def downStatusLabel (code : Nat) : GoStr :=
  str "Down (Status Code: " ++ Nat.toDigits 10 code ++ str ")"

/-- Result of one `checkWebsite` call: the effect trace it emitted, and
`some msg` when the call ended in a `panic` (which aborts the whole
process) rather than returning. -/
structure CheckResult where
  effects : List Effect
  panicMsg : Option GoStr
deriving DecidableEq

/-- Embedding of `checkWebsite(url, db)` from `src/main.go` lines 204–264, with the
`http.Get` outcome, the formatted current time and the TLS network
behaviour as inputs.  Branches, in source order:
* transport error containing `"net/http: TLS handshake timeout"` —
  status upsert with the raw error text and latency 0, then a WARNING
  Slack message; no e-mail (lines 212–219);
* transport error containing `"no such host"` — status upsert, WARNING
  Slack message, then the owner e-mail (lines 220–228);
* any other transport error — status upsert, owner e-mail, then an
  ATTENTION Slack message (lines 229–239);
* status 200 — status upsert `"Up"` with the measured latency, the
  response-time insert, then `checkSSL` (lines 246–253); a `checkSSL`
  panic aborts the call after the first two writes;
* any other status — status upsert `"Down (Status Code: N)"` with
  latency 0 and the owner e-mail; the Slack call on line 261 is guarded
  by `err != nil`, which is false after a successful `http.Get`, so no
  chat message is emitted (lines 255–263). -/
def checkWebsite (url : GoStr) (probe : ProbeResult) (timeString : GoStr)
    (net : GoStr → DialOutcome) : CheckResult :=
  match probe with
  | .transportError e =>
    if goContains e (str "net/http: TLS handshake timeout") then
      { effects := [.updateWebsiteStatus url e 0,
                    .sendSlackMessage (slackTLSTimeoutMsg url e timeString)],
        panicMsg := none }
    else if goContains e (str "no such host") then
      { effects := [.updateWebsiteStatus url e 0,
                    .sendSlackMessage (slackNoSuchHostMsg url e timeString),
                    .sendEmailToClient url e],
        panicMsg := none }
    else
      { effects := [.updateWebsiteStatus url e 0,
                    .sendEmailToClient url e,
                    .sendSlackMessage (slackOtherErrMsg url e timeString)],
        panicMsg := none }
  | .response statusCode latency =>
    if statusCode = 200 then
      match checkSSL net url with
      | .ok fx =>
        { effects := [.updateWebsiteStatus url (str "Up") latency,
                      .saveRespTime url latency] ++ fx,
          panicMsg := none }
      | .error m =>
        { effects := [.updateWebsiteStatus url (str "Up") latency,
                      .saveRespTime url latency],
          panicMsg := some m }
    else
      { effects := [.updateWebsiteStatus url (downStatusLabel statusCode) 0,
                    .sendEmailToClient url (downStatusLabel statusCode)],
        panicMsg := none }

/-- One sequential pass over a URL list (`for _, url := range websites`,
`src/main.go` lines 62–64): each URL is checked in order; a `panic`
inside `checkWebsite` aborts the whole pass (and the process), leaving
the remaining URLs unchecked.  Returns the URLs actually probed and the
panic message, if any. -/
def runPass (probe : GoStr → ProbeResult) (timeString : GoStr)
    (net : GoStr → DialOutcome) : List GoStr → List GoStr × Option GoStr
  | [] => ([], none)
  | u :: rest =>
    match (checkWebsite u (probe u) timeString net).panicMsg with
    | some m => ([u], some m)
    | none =>
      (u :: (runPass probe timeString net rest).1,
       (runPass probe timeString net rest).2)

/-- The global `checkedURLs = make(map[string]bool)` of `src/main.go`
line 25, modelled by the list of URLs currently mapped to `true`
(membership = marked checked). -/
abbrev CheckedURLs := List GoStr

/-- Map lookup `checkedURLs[url]` (a missing key reads as `false`). -/
def mapLookup (m : CheckedURLs) (u : GoStr) : Bool := m.contains u

/-- The spec's `shouldCheck`: the guard `!checkedURLs[url]` of
`src/main.go` line 93. -/
def shouldCheck (m : CheckedURLs) (u : GoStr) : Bool := !mapLookup m u

/-- The assignment `checkedURLs[url] = true` of `src/main.go` line 95. -/
def markChecked (m : CheckedURLs) (u : GoStr) : CheckedURLs := u :: m

/-- Embedding of `resetCheckedURLs()` from `src/main.go` lines 102–105: the whole map
is replaced by a fresh empty one. -/
def resetCheckedURLs (_ : CheckedURLs) : CheckedURLs := []

/-- One tick pass (`src/main.go` lines 92–97): for each URL of the fetched
list, in order, probe it and mark it checked iff `!checkedURLs[url]`.
Returns the updated map and the list of URLs actually probed. -/
def tickPass (checked : CheckedURLs) : List GoStr → CheckedURLs × List GoStr
  | [] => (checked, [])
  | u :: rest =>
    if mapLookup checked u then tickPass checked rest
    else
      ((tickPass (markChecked checked u) rest).1,
       u :: (tickPass (markChecked checked u) rest).2)

/-- An event of the running scheduler: a tick of the 600-second check
timer carrying the URL list fetched from the store (`src/main.go`
lines 83–97), or a firing of the 5-minute reset goroutine
(lines 73–79).  The two timers run on independent clocks, so events
interleave in an arbitrary order. -/
inductive SchedEvent where
  | tick (urls : List GoStr)
  | reset
deriving DecidableEq

/-- Effect of one scheduler event on the dedup map, also returning the
URLs probed by the event. -/
def schedStep (checked : CheckedURLs) : SchedEvent → CheckedURLs × List GoStr
  | .tick urls => tickPass checked urls
  | .reset => (resetCheckedURLs checked, [])

/-- Run a sequence of scheduler events, accumulating the probed URLs in
order. -/
def schedRun (checked : CheckedURLs) : List SchedEvent → CheckedURLs × List GoStr
  | [] => (checked, [])
  | e :: es =>
    ((schedRun (schedStep checked e).1 es).1,
     (schedStep checked e).2 ++ (schedRun (schedStep checked e).1 es).2)

/-- The URLs probed by `main` (`src/main.go` lines 62–99): the immediate
startup pass probes every entry of the first fetched list without
consulting or updating `checkedURLs` (lines 62–64), then the event loop
runs from the still-empty map. -/
def mainProbes (startupList : List GoStr) (events : List SchedEvent) : List GoStr :=
  startupList ++ (schedRun [] events).2

/-- Embedding of `loadEnv()` from `src/main.go` lines 16–22: on a `.env` load failure
the process calls `os.Exit(1)`; `some c` is an exit with code `c`,
`none` means execution continues. -/
def loadEnv (envOk : Bool) : Option Nat :=
  if envOk then none else some 1

/-- Exit behaviour of `main`'s startup sequence (`src/main.go`
lines 28–60): `loadEnv` may exit with code 1; a failing `sql.Open`
(lines 48–53) logs the error, sends a Slack warning and `return`s from
`main`, which terminates the process with exit code 0; otherwise `main`
enters the monitoring loop and never exits (`none`). -/
def startupExitCode (envOk dbOpenOk : Bool) : Option Nat :=
  match loadEnv envOk with
  | some c => some c
  | none => if dbOpenOk then none else some 0

/-- The `(url, statusLabel, responseTime)` triples passed to
`updateWebsiteStatus` within an effect trace, in order. -/
def recordedStatuses (fx : List Effect) : List (GoStr × GoStr × Nat) :=
  fx.filterMap fun e =>
    match e with
    | .updateWebsiteStatus u s l => some (u, s, l)
    | _ => none

/-! ### String-model lemmas -/

/-- A prefix of `a` is a prefix of `a ++ b`. -/
theorem goHasPrefix_append (p a b : GoStr) (h : goHasPrefix a p = true) :
    goHasPrefix (a ++ b) p = true := by
  induction p generalizing a with
  | nil => cases a <;> simp [goHasPrefix]
  | cons d p ih =>
    cases a with
    | nil => simp [goHasPrefix] at h
    | cons c a =>
      simp only [goHasPrefix, Bool.and_eq_true] at h
      simp only [List.cons_append, goHasPrefix, Bool.and_eq_true]
      exact ⟨h.1, ih a h.2⟩

/-- Every string contains the empty string. -/
theorem goContains_nil (s : GoStr) : goContains s [] = true := by
  cases s <;> simp [goContains, goHasPrefix, List.isEmpty]

/-- A substring of `s` is a substring of `a ++ s`. -/
theorem goContains_append_right (a s sub : GoStr) (h : goContains s sub = true) :
    goContains (a ++ s) sub = true := by
  induction a with
  | nil => simpa using h
  | cons c a ih =>
    simp only [List.cons_append, goContains, Bool.or_eq_true]
    exact Or.inr ih

/-- A substring of `s` is a substring of `s ++ b`. -/
theorem goContains_append_left (s b sub : GoStr) (h : goContains s sub = true) :
    goContains (s ++ b) sub = true := by
  induction s with
  | nil =>
    simp only [goContains, List.isEmpty_iff] at h
    subst h
    simpa using goContains_nil b
  | cons c s ih =>
    simp only [goContains, Bool.or_eq_true] at h
    simp only [List.cons_append, goContains, Bool.or_eq_true]
    rcases h with h | h
    · exact Or.inl (goHasPrefix_append sub (c :: s) b h)
    · exact Or.inr (ih h)

/-- A substring of the middle block is a substring of the whole
concatenation. -/
theorem goContains_middle (a m b sub : GoStr) (h : goContains m sub = true) :
    goContains (a ++ (m ++ b)) sub = true :=
  goContains_append_right a (m ++ b) sub (goContains_append_left m b sub h)

/-- Matching a prefix bounds any character count of the prefix by that of the string. -/
theorem countP_le_of_goHasPrefix (p : Char → Bool) (s pre : GoStr)
    (h : goHasPrefix s pre = true) : pre.countP p ≤ s.countP p := by
  induction pre generalizing s with
  | nil => simp
  | cons d pre ih =>
    cases s with
    | nil => simp [goHasPrefix] at h
    | cons c s =>
      simp only [goHasPrefix, Bool.and_eq_true, beq_iff_eq] at h
      obtain ⟨rfl, h2⟩ := h
      simp only [List.countP_cons]
      exact Nat.add_le_add_right (ih s h2) _

/-- Containing a substring bounds any character count of the substring by that of the string. -/
theorem countP_le_of_goContains (p : Char → Bool) (s sub : GoStr)
    (h : goContains s sub = true) : sub.countP p ≤ s.countP p := by
  induction s with
  | nil =>
    simp only [goContains, List.isEmpty_iff] at h
    subst h
    simp
  | cons c s ih =>
    simp only [goContains, Bool.or_eq_true] at h
    rcases h with h | h
    · exact countP_le_of_goHasPrefix p (c :: s) sub h
    · calc sub.countP p ≤ s.countP p := ih h
        _ ≤ (c :: s).countP p := by simp only [List.countP_cons]; omega

/-- Trimming leaves a string without the prefix unchanged. -/
theorem goTrimPrefix_of_no_such (s pre : GoStr) (h : goHasPrefix s pre = false) :
    goTrimPrefix s pre = s := by
  simp [goTrimPrefix, h]

/-! ### checkSSL lemmas -/

/-- An address with at least two colons never reaches the network: Go's
dialer rejects it. -/
theorem goDial_two_colons (net : GoStr → DialOutcome) (addr : GoStr)
    (h : 2 ≤ colonCount addr) :
    goDial net addr
      = .err (str "dial tcp: address " ++ addr ++ str ": too many colons in address") := by
  unfold goDial
  obtain ⟨k, hk⟩ := Nat.exists_eq_add_of_le' h
  rw [hk]
  rfl

/-- When `checkSSL` returns normally, its effect trace is exactly the one
certificate-metadata upsert for the checked URL. -/
theorem checkSSL_ok_shape (net : GoStr → DialOutcome) (url : GoStr) (fx : List Effect)
    (h : checkSSL net url = .ok fx) :
    ∃ issuer expiredssl, fx = [Effect.updateSSLInfo url issuer expiredssl] := by
  unfold checkSSL at h
  split at h
  · exact absurd h (by simp)
  · split at h
    · exact absurd h (by simp)
    · simp only [Except.ok.injEq] at h
      exact ⟨_, _, h.symm⟩

/-! ### Scheduler lemmas -/

/-- Marking a URL adds it to the dedup map. -/
theorem mapLookup_markChecked (m : CheckedURLs) (v u : GoStr) :
    mapLookup (markChecked m v) u = (decide (u = v) || mapLookup m u) := by
  simp [mapLookup, markChecked, List.contains_cons]

/-- Boolean membership in the probe list agrees with `Mem`. -/
theorem contains_eq_true_iff (p : List GoStr) (u : GoStr) : p.contains u = true ↔ u ∈ p := by
  simp

/-- Core invariant of one tick pass (`src/main.go` lines 92-97): a URL
already marked is never probed, an unmarked URL is probed at most once,
and afterwards a URL is marked iff it was marked before or probed by
this pass. -/
theorem tickPass_count_and_lookup (checked : CheckedURLs) (l : List GoStr) (u : GoStr) :
    (tickPass checked l).2.count u + (if mapLookup checked u then 1 else 0) ≤ 1 ∧
    mapLookup (tickPass checked l).1 u
      = (mapLookup checked u || (tickPass checked l).2.contains u) := by
  induction l generalizing checked with
  | nil => cases h : mapLookup checked u <;> simp [tickPass, h]
  | cons v rest ih =>
    by_cases hv : mapLookup checked v
    · simpa [tickPass, hv] using ih checked
    · by_cases huv : u = v
      · subst huv
        have ihm := ih (markChecked checked u)
        rw [mapLookup_markChecked] at ihm
        simp only [decide_True, Bool.true_or, if_pos] at ihm
        have hcount : (tickPass (markChecked checked u) rest).2.count u = 0 := by omega
        refine ⟨?_, ?_⟩
        · simp [tickPass, hv, List.count_cons, hcount]
        · simp [tickPass, hv, ihm.2, List.contains_cons]
      · have ihm := ih (markChecked checked v)
        rw [mapLookup_markChecked] at ihm
        have hd : decide (u = v) = false := by simp [huv]
        rw [hd, Bool.false_or] at ihm
        have hvu : (v == u) = false := by
          simp [beq_eq_false_iff_ne, Ne.symm huv]
        have huvb : (u == v) = false := by
          simp [beq_eq_false_iff_ne, huv]
        refine ⟨?_, ?_⟩
        · simpa [tickPass, hv, List.count_cons, hvu] using ihm.1
        · simp [tickPass, hv, ihm.2, List.contains_cons, huvb, hd]

/-- Across any sequence of tick passes with no intervening reset, a URL
is probed at most once, and not at all when it was already marked. -/
theorem ticksRun_count_le (ls : List (List GoStr)) :
    ∀ (checked : CheckedURLs) (u : GoStr),
      (schedRun checked (ls.map SchedEvent.tick)).2.count u
        + (if mapLookup checked u then 1 else 0) ≤ 1 := by
  induction ls with
  | nil =>
    intro c u
    cases h : mapLookup c u <;> simp [schedRun, h]
  | cons l ls ih =>
    intro c u
    have ht := tickPass_count_and_lookup c l u
    have ihc := ih (tickPass c l).1 u
    rw [ht.2] at ihc
    simp only [List.map_cons, schedRun, schedStep, List.count_append]
    by_cases hm : mapLookup c u
    · have h1 : (tickPass c l).2.count u = 0 := by
        have h3 := ht.1
        simp [hm] at h3 ⊢
        omega
      simp [hm] at ihc ⊢
      omega
    · have hmf : mapLookup c u = false := by simpa using hm
      by_cases hcont : (tickPass c l).2.contains u
      · have h2 : (tickPass c l).2.count u ≤ 1 := by
          have h3 := ht.1
          simp [hmf] at h3
          omega
        have hmem : u ∈ (tickPass c l).2 := (contains_eq_true_iff _ _).mp hcont
        simp [hmf, hmem] at ihc ⊢
        omega
      · have hcontf : (tickPass c l).2.contains u = false := by simpa using hcont
        have h1 : (tickPass c l).2.count u = 0 :=
          List.count_eq_zero.mpr fun hmem => hcont ((contains_eq_true_iff _ _).mpr hmem)
        have hnmem : u ∉ (tickPass c l).2 := fun hmem =>
          hcont ((contains_eq_true_iff _ _).mpr hmem)
        simp [hmf, hnmem] at ihc ⊢
        omega

/-- A URL marked in the dedup map stays marked across any sequence of
scheduler events that contains no reset. -/
theorem mapLookup_schedRun_of_no_reset (evs : List SchedEvent) :
    ∀ (checked : CheckedURLs) (u : GoStr), mapLookup checked u = true →
      SchedEvent.reset ∉ evs → mapLookup (schedRun checked evs).1 u = true := by
  induction evs with
  | nil =>
    intro c u hm _
    simpa [schedRun] using hm
  | cons e es ih =>
    intro c u hm hr
    cases e with
    | reset => exact absurd (List.mem_cons_self _ _) hr
    | tick l =>
      have ht := (tickPass_count_and_lookup c l u).2
      simp only [schedRun, schedStep]
      refine ih _ u ?_ fun h => hr (List.mem_cons_of_mem _ h)
      rw [ht, hm, Bool.true_or]


/-! ### Claim theorems -/

/-- C1: the spec requires a TLS-handshake or hostname-verification failure
during certificate inspection after a `Success` outcome to be converted
into a recoverable condition, never aborting the process, so that the
remaining URLs of the same pass are still checked.  The code instead
`panic`s inside `checkSSL` (`src/main.go` lines 174–181): with two URLs
both answering 200 and a network on which the TLS dial fails, the pass
probes only the first URL, ends in a panic, and never reaches the
second URL. -/
theorem c1_cert_failure_panics_and_stops_pass :
    runPass (fun _ => ProbeResult.response 200 120) (str "T")
        (fun _ => DialOutcome.err (str "connection refused"))
        [str "https://a.test", str "https://b.test"]
      = ([str "https://a.test"],
         some (str "Server doesn't support SSL certificate err: connection refused")) := rfl

/-- C2: the claim says a non-200 response dispatches both a Warning chat
notification and an owner e-mail.  Evaluating the code on a 503
response shows the e-mail is dispatched but no chat message ever is:
the `sendSlackMessage` call on `src/main.go` line 261 is guarded by
`err != nil`, which is false after a successful `http.Get`. -/
theorem c2_http_failure_emails_but_never_chats (t : GoStr) (net : GoStr → DialOutcome) :
    (checkWebsite (str "https://slow.test") (ProbeResult.response 503 0) t net).effects
      = [Effect.updateWebsiteStatus (str "https://slow.test")
           (str "Down (Status Code: 503)") 0,
         Effect.sendEmailToClient (str "https://slow.test")
           (str "Down (Status Code: 503)")]
    ∧ ((checkWebsite (str "https://slow.test") (ProbeResult.response 503 0) t net).effects.countP
         Effect.isSendSlackMessage) = 0 :=
  ⟨rfl, rfl⟩

/-- C3 counterexample: the claim says any unrecoverable startup failure —
in particular a failure to open the database store — exits with a
non-zero code.  In the code (`src/main.go` lines 48–53) a failing
`sql.Open` makes `main` log, send a Slack warning and `return`, so the
process terminates with exit code 0. -/
theorem c3_counterexample_db_open_failure_exits_zero :
    startupExitCode true false = some 0 := rfl

/-- C3 amended: the process exits with code 1 (non-zero) when loading the
environment fails at startup, but a failure to open the database store
makes `main` return with exit code 0; with both steps succeeding the
process enters the monitoring loop and does not exit at startup. -/
theorem c3_amended_startup_exit_codes (dbOpenOk : Bool) :
    startupExitCode false dbOpenOk = some 1
    ∧ startupExitCode true false = some 0
    ∧ startupExitCode true true = none :=
  ⟨rfl, rfl, rfl⟩

/-- C4 counterexample: with one URL in the store, the immediate startup
pass (`src/main.go` lines 62–64, which neither consults nor marks
`checkedURLs`) together with a single tick pass occurring before any
reset probes the same URL twice, contradicting the claim that no URL
undergoes more than one probe before the first reset. -/
theorem c4_counterexample_startup_then_tick_probes_twice :
    (mainProbes [str "https://a.test"] [SchedEvent.tick [str "https://a.test"]]).count
        (str "https://a.test") = 2
    ∧ SchedEvent.reset ∉ [SchedEvent.tick [str "https://a.test"]] :=
  ⟨rfl, by decide⟩

/-- C4 amended: within one reset window the tick-timer passes probe each
URL at most once (from any dedup-map state, over any sequence of tick
passes with no intervening reset), and the total number of probes of a
URL before the first reset is at most its number of occurrences in the
startup pass's list plus one, because the startup pass bypasses the
dedup map entirely. -/
theorem c4_amended_tick_passes_probe_at_most_once (checked : CheckedURLs)
    (l₀ : List GoStr) (ls : List (List GoStr)) (u : GoStr) :
    (schedRun checked (ls.map SchedEvent.tick)).2.count u ≤ 1
    ∧ (mainProbes l₀ (ls.map SchedEvent.tick)).count u ≤ l₀.count u + 1 := by
  constructor
  · have h := ticksRun_count_le ls checked u
    omega
  · unfold mainProbes
    rw [List.count_append]
    have h := ticksRun_count_le ls [] u
    simp only [mapLookup, List.contains, List.elem_nil, Bool.false_eq_true, if_neg] at h
    omega

/-- C5: marking a URL makes `shouldCheck` (the guard `!checkedURLs[url]`)
false; it stays false across any sequence of scheduler events that
contains no reset; and immediately after `resetCheckedURLs`, which
replaces the whole map by an empty one, `shouldCheck` is true for every
URL, marked or not. -/
theorem c5_dedup_window_semantics :
    (∀ (m : CheckedURLs) (u : GoStr), mapLookup (markChecked m u) u = true)
    ∧ (∀ (checked : CheckedURLs) (u : GoStr) (evs : List SchedEvent),
        mapLookup checked u = true → SchedEvent.reset ∉ evs →
        shouldCheck (schedRun checked evs).1 u = false)
    ∧ (∀ (checked : CheckedURLs) (u : GoStr),
        shouldCheck (resetCheckedURLs checked) u = true) := by
  refine ⟨?_, ?_, ?_⟩
  · intro m u
    simp [mapLookup_markChecked]
  · intro checked u evs hm hr
    have h := mapLookup_schedRun_of_no_reset evs checked u hm hr
    simp [shouldCheck, h]
  · intro checked u
    simp [shouldCheck, mapLookup, resetCheckedURLs]

/-- C5 witness: a URL marked in the window is still reported as not to be
checked after a tick on another URL, and becomes eligible again right
after a reset. -/
theorem c5_dedup_window_semantics_witness :
    shouldCheck (schedRun (markChecked [] (str "https://a.test"))
        [SchedEvent.tick [str "https://b.test"]]).1 (str "https://a.test") = false
    ∧ shouldCheck (resetCheckedURLs (markChecked [] (str "https://a.test")))
        (str "https://a.test") = true :=
  ⟨c5_dedup_window_semantics.2.1 _ _ _ (by decide) (by decide),
   c5_dedup_window_semantics.2.2 _ _⟩

/-- C6: every probe records its status exactly once (`updateWebsiteStatus`,
the spec's `recordStatus`), and records a latency sample
(`saveRespTime`, the spec's `recordLatencySample`) exactly once on a
`Success` outcome and never on a transport or HTTP failure. -/
theorem c6_record_status_once_latency_on_success (url : GoStr) (probe : ProbeResult)
    (t : GoStr) (net : GoStr → DialOutcome) :
    (checkWebsite url probe t net).effects.countP Effect.isUpdateWebsiteStatus = 1
    ∧ (checkWebsite url probe t net).effects.countP Effect.isSaveRespTime
        = (if probe.isSuccess then 1 else 0) := by
  cases probe with
  | transportError e =>
    by_cases h1 : goContains e (str "net/http: TLS handshake timeout") = true
    · simp [checkWebsite, h1, ProbeResult.isSuccess, List.countP_cons,
        Effect.isUpdateWebsiteStatus, Effect.isSaveRespTime]
    · by_cases h2 : goContains e (str "no such host") = true
      · simp [checkWebsite, h1, h2, ProbeResult.isSuccess, List.countP_cons,
          Effect.isUpdateWebsiteStatus, Effect.isSaveRespTime]
      · simp [checkWebsite, h1, h2, ProbeResult.isSuccess, List.countP_cons,
          Effect.isUpdateWebsiteStatus, Effect.isSaveRespTime]
  | response code lat =>
    by_cases hc : code = 200
    · subst hc
      cases hssl : checkSSL net url with
      | error m =>
        simp [checkWebsite, hssl, ProbeResult.isSuccess, List.countP_cons,
          Effect.isUpdateWebsiteStatus, Effect.isSaveRespTime]
      | ok fx =>
        obtain ⟨iss, na, rfl⟩ := checkSSL_ok_shape net url fx hssl
        simp [checkWebsite, hssl, ProbeResult.isSuccess, List.countP_cons,
          Effect.isUpdateWebsiteStatus, Effect.isSaveRespTime]
    · have hb : (code == 200) = false := by
        simp [hc]
      simp [checkWebsite, hc, hb, ProbeResult.isSuccess, List.countP_cons,
        Effect.isUpdateWebsiteStatus, Effect.isSaveRespTime]

/-- C7: a probe classified into the no-such-host branch records the raw
error text, sends a Warning-severity chat message containing
"could be down", and dispatches the owner e-mail. -/
theorem c7_no_such_host_chat_and_email (url e t : GoStr) (net : GoStr → DialOutcome)
    (h1 : goContains e (str "no such host") = true)
    (h2 : goContains e (str "net/http: TLS handshake timeout") = false) :
    (checkWebsite url (ProbeResult.transportError e) t net).effects
      = [Effect.updateWebsiteStatus url e 0,
         Effect.sendSlackMessage (slackNoSuchHostMsg url e t),
         Effect.sendEmailToClient url e]
    ∧ severityOfMsg (slackNoSuchHostMsg url e t) = Severity.warning
    ∧ goContains (slackNoSuchHostMsg url e t) (str "could be down") = true := by
  refine ⟨?_, ?_, ?_⟩
  · simp [checkWebsite, h1, h2]
  · have hp : goHasPrefix (slackNoSuchHostMsg url e t) (str "WARNING") = true := by
      unfold slackNoSuchHostMsg
      exact goHasPrefix_append _ _ _ (goHasPrefix_append _ _ _ (goHasPrefix_append _ _ _
        (goHasPrefix_append _ _ _ (goHasPrefix_append _ _ _ (by decide)))))
    simp [severityOfMsg, hp]
  · unfold slackNoSuchHostMsg
    simp only [List.append_assoc]
    exact goContains_append_right _ _ _ (goContains_append_right _ _ _
      (goContains_append_left _ _ _ (by decide)))

/-- C7 witness: the scenario of the spec, URL `https://down.test` failing
with the error text `no such host`. -/
theorem c7_no_such_host_chat_and_email_witness :
    (checkWebsite (str "https://down.test")
        (ProbeResult.transportError (str "no such host")) (str "T")
        (fun _ => DialOutcome.err [])).effects
      = [Effect.updateWebsiteStatus (str "https://down.test") (str "no such host") 0,
         Effect.sendSlackMessage (slackNoSuchHostMsg (str "https://down.test")
            (str "no such host") (str "T")),
         Effect.sendEmailToClient (str "https://down.test") (str "no such host")]
    ∧ severityOfMsg (slackNoSuchHostMsg (str "https://down.test")
        (str "no such host") (str "T")) = Severity.warning
    ∧ goContains (slackNoSuchHostMsg (str "https://down.test")
        (str "no such host") (str "T")) (str "could be down") = true :=
  c7_no_such_host_chat_and_email _ _ _ _ (by decide) (by decide)

/-- C8: a probe classified into the TLS-handshake-timeout branch records
the raw error text and sends a Warning-severity chat message, and no
owner e-mail is dispatched. -/
theorem c8_tls_timeout_chat_never_email (url e t : GoStr) (net : GoStr → DialOutcome)
    (h1 : goContains e (str "net/http: TLS handshake timeout") = true) :
    (checkWebsite url (ProbeResult.transportError e) t net).effects
      = [Effect.updateWebsiteStatus url e 0,
         Effect.sendSlackMessage (slackTLSTimeoutMsg url e t)]
    ∧ severityOfMsg (slackTLSTimeoutMsg url e t) = Severity.warning
    ∧ ((checkWebsite url (ProbeResult.transportError e) t net).effects.countP
         Effect.isSendEmailToClient) = 0 := by
  have hfx : (checkWebsite url (ProbeResult.transportError e) t net).effects
      = [Effect.updateWebsiteStatus url e 0,
         Effect.sendSlackMessage (slackTLSTimeoutMsg url e t)] := by
    simp [checkWebsite, h1]
  refine ⟨hfx, ?_, ?_⟩
  · have hp : goHasPrefix (slackTLSTimeoutMsg url e t) (str "WARNING") = true := by
      unfold slackTLSTimeoutMsg
      exact goHasPrefix_append _ _ _ (goHasPrefix_append _ _ _ (goHasPrefix_append _ _ _
        (goHasPrefix_append _ _ _ (goHasPrefix_append _ _ _ (by decide)))))
    simp [severityOfMsg, hp]
  · rw [hfx]
    simp [List.countP_cons, Effect.isSendEmailToClient]

/-- C8 witness: a probe failing with exactly the Go error text
`net/http: TLS handshake timeout`. -/
theorem c8_tls_timeout_chat_never_email_witness :
    (checkWebsite (str "https://slow.test")
        (ProbeResult.transportError (str "net/http: TLS handshake timeout")) (str "T")
        (fun _ => DialOutcome.err [])).effects
      = [Effect.updateWebsiteStatus (str "https://slow.test")
           (str "net/http: TLS handshake timeout") 0,
         Effect.sendSlackMessage (slackTLSTimeoutMsg (str "https://slow.test")
            (str "net/http: TLS handshake timeout") (str "T"))]
    ∧ severityOfMsg (slackTLSTimeoutMsg (str "https://slow.test")
        (str "net/http: TLS handshake timeout") (str "T")) = Severity.warning
    ∧ ((checkWebsite (str "https://slow.test")
        (ProbeResult.transportError (str "net/http: TLS handshake timeout")) (str "T")
        (fun _ => DialOutcome.err [])).effects.countP
         Effect.isSendEmailToClient) = 0 :=
  c8_tls_timeout_chat_never_email _ _ _ _ (by decide)

/-- C9: the status label recorded by `updateWebsiteStatus` is `"Up"` with
the measured latency for a 200 response, `"Down (Status Code: N)"` with
latency 0 for a non-200 status `N`, and the raw transport error text
with latency 0 for a transport failure. -/
theorem c9_status_labels (url t : GoStr) (net : GoStr → DialOutcome)
    (lat code : Nat) (e : GoStr) :
    recordedStatuses (checkWebsite url (ProbeResult.response 200 lat) t net).effects
      = [(url, str "Up", lat)]
    ∧ (code ≠ 200 →
        recordedStatuses (checkWebsite url (ProbeResult.response code lat) t net).effects
          = [(url, downStatusLabel code, 0)])
    ∧ recordedStatuses (checkWebsite url (ProbeResult.transportError e) t net).effects
      = [(url, e, 0)] := by
  refine ⟨?_, ?_, ?_⟩
  · cases hssl : checkSSL net url with
    | error m => simp [checkWebsite, hssl, recordedStatuses, List.filterMap_cons]
    | ok fx =>
      obtain ⟨iss, na, rfl⟩ := checkSSL_ok_shape net url fx hssl
      simp [checkWebsite, hssl, recordedStatuses, List.filterMap_cons]
  · intro hc
    simp [checkWebsite, hc, recordedStatuses, List.filterMap_cons]
  · by_cases h1 : goContains e (str "net/http: TLS handshake timeout") = true
    · simp [checkWebsite, h1, recordedStatuses, List.filterMap_cons]
    · by_cases h2 : goContains e (str "no such host") = true
      · simp [checkWebsite, h1, h2, recordedStatuses, List.filterMap_cons]
      · simp [checkWebsite, h1, h2, recordedStatuses, List.filterMap_cons]

/-- C9 witness: the spec's 503 scenario, recorded as
`Down (Status Code: 503)` with latency 0. -/
theorem c9_status_labels_witness :
    recordedStatuses (checkWebsite (str "https://slow.test")
        (ProbeResult.response 503 7) (str "T")
        (fun _ => DialOutcome.err [])).effects
      = [(str "https://slow.test", downStatusLabel 503, 0)] :=
  (c9_status_labels (str "https://slow.test") (str "T")
      (fun _ => DialOutcome.err []) 7 503 []).2.1 (by decide)

/-- C10: `checkSSL` strips only the literal prefix `"https://"`, so for a
URL with any other scheme (it contains `"://"` but does not start with
`"https://"`) the stripped URL is unchanged, the dialed address still
contains the scheme separator, and the dial's error branch of
`checkSSL` is taken no matter how the network behaves. -/
theorem c10_non_https_scheme_dial_error_branch (url : GoStr)
    (net : GoStr → DialOutcome)
    (hscheme : goContains url (str "://") = true)
    (hnot : goHasPrefix url (str "https://") = false) :
    goTrimPrefix url (str "https://") = url
    ∧ goContains (goTrimPrefix url (str "https://") ++ str ":443") (str "://") = true
    ∧ ∃ e, checkSSL net url
        = Except.error (str "Server doesn't support SSL certificate err: " ++ e) := by
  have htrim : goTrimPrefix url (str "https://") = url := goTrimPrefix_of_no_such _ _ hnot
  refine ⟨htrim, ?_, ?_⟩
  · rw [htrim]
    exact goContains_append_left _ _ _ hscheme
  · have h0 := countP_le_of_goContains (· == ':') url (str "://") hscheme
    have h1 : (str "://").countP (· == ':') = 1 := by decide
    rw [h1] at h0
    have h2 : (str ":443").countP (· == ':') = 1 := by decide
    have haddr : 2 ≤ colonCount (url ++ str ":443") := by
      unfold colonCount
      rw [List.countP_append]
      omega
    refine ⟨str "dial tcp: address " ++ (url ++ str ":443")
        ++ str ": too many colons in address", ?_⟩
    unfold checkSSL
    rw [htrim, goDial_two_colons net _ haddr]

/-- C10 witness: the plain-HTTP URL `http://ok.test` keeps its scheme after
stripping and forces the dial-error branch even on a network that would
accept any connection. -/
theorem c10_non_https_scheme_dial_error_branch_witness :
    goTrimPrefix (str "http://ok.test") (str "https://") = str "http://ok.test"
    ∧ goContains (goTrimPrefix (str "http://ok.test") (str "https://") ++ str ":443")
        (str "://") = true
    ∧ ∃ e, checkSSL (fun _ => DialOutcome.conn none [] []) (str "http://ok.test")
        = Except.error (str "Server doesn't support SSL certificate err: " ++ e) :=
  c10_non_https_scheme_dial_error_branch (str "http://ok.test")
    (fun _ => DialOutcome.conn none [] []) (by decide) (by decide)
